import Mathlib

/-!
Shallow embedding of the merge orchestration in `src/store.rs` (the `Store`
trait: `merge`, `merge_with_driver`, and the helper `with_timing`).

The orchestration coordinates four external collaborators, which the source
file only uses through a narrow interface:

* the Store backend (`fetch_local_tree`, `fetch_remote_tree`, `apply`),
* the Merger (`Merger::with_driver`, `merge`, `counts`, `subsumes`,
  `local_deletions`, `remote_deletions`, `deletions`),
* the Driver (`record_telemetry_event`; logging hooks are diagnostics only
  and are not modelled),
* the AbortSignal (`err_if_aborted`).

The behaviour of the collaborators is abstracted into a `StoreEnv`: a record
of the outcomes each collaborator call would produce on this run.  The
orchestration itself — the order of calls, the checkpoints, the telemetry
payloads, the error propagation — is translated line by line from
`merge_with_driver`.  A run returns both its result and the list of
collaborator calls it performed (its trace), so that properties about which
calls happen, with which arguments and in which order, are statements about
the trace.

In the source, the error type `E` of a `Store<E>` satisfies
`E: From<Error>`, so the one error type carries both the backend errors and
the core error kinds (`Abort`, `UnmergedLocalItems`, `UnmergedRemoteItems`).
Here `MergeError ε` models `E` as the explicit sum of the backend error type
`ε` and the core kinds; `MergeError.backend` is the (identity) embedding of
a backend error, so an error being "propagated unchanged" is visible as the
propagated value carrying the very same `ε`.

Wall-clock time (`std::time::Instant` / `Duration`) cannot be observed in a
pure embedding; each stage elapsed duration is instead supplied by the
environment and threaded through `with_timing` exactly where the source
measures it.
-/

namespace Vellum

/-- `std::time::Duration`, abstracted to a number (of nanoseconds). -/
abbrev Duration := Nat

/-- An item GUID, opaque to the orchestration. -/
abbrev Guid := Nat

/-- A handle for a `tree::MergedRoot`; the orchestration never inspects it,
it only passes the value produced by the merger on to `apply`. -/
abbrev MergedRoot := Nat

/-- The summary returned by `tree.problems().counts()`; opaque to the
orchestration, which only copies it into telemetry. -/
abbrev ProblemCounts := Nat

/-- The conflict tally returned by `merger.counts()`; opaque to the
orchestration, which only copies it into telemetry. -/
abbrev ConflictCounts := Nat

/-- The part of a `tree::Tree` the orchestration observes: `size()` and
`problems().counts()`. -/
structure Tree where
  size : Nat
  problemCounts : ProblemCounts
deriving DecidableEq

/-- Which side a deletion is tagged for. -/
inductive Side where
  | localSide
  | remoteSide
deriving DecidableEq

/-- Modelled from the spec: a `merge::Deletion` as the orchestration hands it
to `apply` (merge.rs is not under src/): "a GUID plus which side(s) it must
be deleted from". -/
structure Deletion where
  guid : Guid
  side : Side
deriving DecidableEq

/-- `driver::TreeStats`, as constructed in `merge_with_driver`: item count,
Problems counts, elapsed time. -/
structure TreeStats where
  items : Nat
  problems : ProblemCounts
  time : Duration
deriving DecidableEq

/-- `driver::TelemetryEvent`, with exactly the payloads `merge_with_driver`
constructs: tree stats for the two fetch stages, elapsed time plus conflict
counts for Merge, elapsed time only for Apply. -/
inductive TelemetryEvent where
  | fetchLocalTree (stats : TreeStats)
  | fetchRemoteTree (stats : TreeStats)
  | merge (time : Duration) (counts : ConflictCounts)
  | apply (time : Duration)
deriving DecidableEq

/-- The error type `E` of `Store<E: From<Error>>`, modelled as the explicit
sum of the core error kinds used by `merge_with_driver` and the backend
errors `ε`. -/
inductive MergeError (ε : Type) where
  | abort
  | unmergedLocalItems
  | unmergedRemoteItems
  | backend (e : ε)
deriving DecidableEq

/-- One observable collaborator call of a run of `merge_with_driver`:
a poll of the abort signal, a Store call, a Merger call, or a
`driver.record_telemetry_event` call (with the event it records). -/
inductive Event where
  | checkAbort
  | fetchLocalCall
  | fetchRemoteCall
  | mergeCall
  | validateLocalCall
  | validateRemoteCall
  | applyCall (root : MergedRoot) (deletions : List Deletion)
  | telemetry (e : TelemetryEvent)
deriving DecidableEq

/-- The abort signal, modelled by the value `err_if_aborted` observes at each
of the checkpoint call sites of the orchestration, numbered in source order
(0 before FetchLocal, 1 before FetchRemote, 2 before the local subsumption
check, 3 before the remote subsumption check). `true` means aborted. -/
abbrev AbortSignal := Nat → Bool

/-- The outcomes the collaborators would produce on one run, abstracting the
Store backend, the Merger, and the stage clocks.  `subsumes` is the merger
subsumption predicate, applied by the orchestration to the two fetched
trees. -/
structure StoreEnv (ε : Type) where
  fetchLocal : Except ε Tree
  fetchRemote : Except ε Tree
  mergeOutcome : Except (MergeError ε) MergedRoot
  counts : ConflictCounts
  subsumes : Tree → Bool
  localDeletions : List Guid
  remoteDeletions : List Guid
  applyOutcome : MergedRoot → List Deletion → Except ε Unit
  fetchLocalTime : Duration
  fetchRemoteTime : Duration
  mergeTime : Duration
  applyTime : Duration

/-- Modelled from the spec: `Merger::deletions()` (merge.rs is not under
src/): the accessors are "`local_deletions()`, `remote_deletions()`,
`deletions()` (the union, each tagged by side)". -/
def mergerDeletions (localDels remoteDels : List Guid) : List Deletion :=
  localDels.map (fun g => ⟨g, Side.localSide⟩) ++
    remoteDels.map (fun g => ⟨g, Side.remoteSide⟩)

/-- `with_timing` from src/store.rs: runs the stage and pairs a success with
its elapsed duration, here supplied by the environment clock. -/
def with_timing {ω α : Type} (run : Except ω α) (elapsed : Duration) :
    Except ω (α × Duration) :=
  run.map (fun value => (value, elapsed))

/-- `Store::merge_with_driver` from src/store.rs, returning its result
together with the trace of collaborator calls.  Checkpoint polls appear as
`checkAbort` events; note that in the source there is no
`signal.err_if_aborted()` between the remote fetch and `merger.merge()` —
the signal is instead passed to `Merger::with_driver`. -/
def mergeWithDriver {ε : Type} (env : StoreEnv ε) (signal : AbortSignal) :
    Except (MergeError ε) Unit × List Event :=
  -- signal.err_if_aborted()?;  (checkpoint 0)
  if signal 0 then
    (.error .abort, [.checkAbort])
  else
    -- let (local_tree, time) = with_timing(|| self.fetch_local_tree())?;
    match with_timing env.fetchLocal env.fetchLocalTime with
    | .error e => (.error (.backend e), [.checkAbort, .fetchLocalCall])
    | .ok (localTree, time) =>
      -- driver.record_telemetry_event(TelemetryEvent::FetchLocalTree(..));
      let telLocal : Event :=
        .telemetry (.fetchLocalTree ⟨localTree.size, localTree.problemCounts, time⟩)
      -- signal.err_if_aborted()?;  (checkpoint 1)
      if signal 1 then
        (.error .abort, [.checkAbort, .fetchLocalCall, telLocal, .checkAbort])
      else
        -- let (remote_tree, time) = with_timing(|| self.fetch_remote_tree())?;
        match with_timing env.fetchRemote env.fetchRemoteTime with
        | .error e =>
          (.error (.backend e),
            [.checkAbort, .fetchLocalCall, telLocal, .checkAbort, .fetchRemoteCall])
        | .ok (remoteTree, timeR) =>
          let telRemote : Event :=
            .telemetry
              (.fetchRemoteTree ⟨remoteTree.size, remoteTree.problemCounts, timeR⟩)
          -- let mut merger = Merger::with_driver(driver, signal, ..);
          -- let (merged_root, time) = with_timing(|| merger.merge())?;
          -- (no checkpoint here in the source)
          match with_timing env.mergeOutcome env.mergeTime with
          | .error e =>
            (.error e,
              [.checkAbort, .fetchLocalCall, telLocal, .checkAbort,
                .fetchRemoteCall, telRemote, .mergeCall])
          | .ok (mergedRoot, timeM) =>
            -- driver.record_telemetry_event(TelemetryEvent::Merge(time, counts));
            let telMerge : Event := .telemetry (.merge timeM env.counts)
            -- signal.err_if_aborted()?;  (checkpoint 2)
            if signal 2 then
              (.error .abort,
                [.checkAbort, .fetchLocalCall, telLocal, .checkAbort,
                  .fetchRemoteCall, telRemote, .mergeCall, telMerge, .checkAbort])
            else
              -- if !merger.subsumes(&local_tree) { Err(UnmergedLocalItems)? }
              if !env.subsumes localTree then
                (.error .unmergedLocalItems,
                  [.checkAbort, .fetchLocalCall, telLocal, .checkAbort,
                    .fetchRemoteCall, telRemote, .mergeCall, telMerge, .checkAbort,
                    .validateLocalCall])
              else
                -- signal.err_if_aborted()?;  (checkpoint 3)
                if signal 3 then
                  (.error .abort,
                    [.checkAbort, .fetchLocalCall, telLocal, .checkAbort,
                      .fetchRemoteCall, telRemote, .mergeCall, telMerge, .checkAbort,
                      .validateLocalCall, .checkAbort])
                else
                  -- if !merger.subsumes(&remote_tree) { Err(UnmergedRemoteItems)? }
                  if !env.subsumes remoteTree then
                    (.error .unmergedRemoteItems,
                      [.checkAbort, .fetchLocalCall, telLocal, .checkAbort,
                        .fetchRemoteCall, telRemote, .mergeCall, telMerge,
                        .checkAbort, .validateLocalCall, .checkAbort,
                        .validateRemoteCall])
                  else
                    -- let ((), time) =
                    --   with_timing(|| self.apply(merged_root, merger.deletions()))?;
                    let dels :=
                      mergerDeletions env.localDeletions env.remoteDeletions
                    match with_timing (env.applyOutcome mergedRoot dels)
                        env.applyTime with
                    | .error e =>
                      (.error (.backend e),
                        [.checkAbort, .fetchLocalCall, telLocal, .checkAbort,
                          .fetchRemoteCall, telRemote, .mergeCall, telMerge,
                          .checkAbort, .validateLocalCall, .checkAbort,
                          .validateRemoteCall, .applyCall mergedRoot dels])
                    | .ok (_, timeA) =>
                      -- driver.record_telemetry_event(TelemetryEvent::Apply(time));
                      (.ok (),
                        [.checkAbort, .fetchLocalCall, telLocal, .checkAbort,
                          .fetchRemoteCall, telRemote, .mergeCall, telMerge,
                          .checkAbort, .validateLocalCall, .checkAbort,
                          .validateRemoteCall, .applyCall mergedRoot dels,
                          .telemetry (.apply timeA)])

/-- Modelled from the spec: `driver::DefaultAbortSignal` (driver.rs is not
under src/): "an always-continue cancellation signal", i.e. never aborted at
any checkpoint. -/
def defaultAbortSignal : AbortSignal := fun _ => false

/-- `Store::merge` from src/store.rs: delegates to `merge_with_driver` with
the built-in default collaborators.  The `DefaultDriver` (modelled from the
spec: "a no-op-telemetry driver", driver.rs is not under src/) consumes the
recorded telemetry events and does nothing with them, so it does not appear
in the trace model, which records the `record_telemetry_event` calls
themselves. -/
def merge {ε : Type} (env : StoreEnv ε) : Except (MergeError ε) Unit × List Event :=
  mergeWithDriver env defaultAbortSignal

/-! ### Observations on a trace -/

/-- Did a stage operation succeed? (`Result::is_ok`.) -/
def isOkE {ω α : Type} : Except ω α → Bool
  | .ok _ => true
  | .error _ => false

/-- The event is the FetchLocalTree telemetry event. -/
def isTelFetchLocal : Event → Bool
  | .telemetry (.fetchLocalTree _) => true
  | _ => false

/-- The event is the FetchRemoteTree telemetry event. -/
def isTelFetchRemote : Event → Bool
  | .telemetry (.fetchRemoteTree _) => true
  | _ => false

/-- The event is the Merge telemetry event. -/
def isTelMerge : Event → Bool
  | .telemetry (.merge _ _) => true
  | _ => false

/-- The event is the Apply telemetry event. -/
def isTelApply : Event → Bool
  | .telemetry (.apply _) => true
  | _ => false

/-- The event is the `fetch_local_tree` Store call. -/
def isCallFetchLocal : Event → Bool
  | .fetchLocalCall => true
  | _ => false

/-- The event is the `fetch_remote_tree` Store call. -/
def isCallFetchRemote : Event → Bool
  | .fetchRemoteCall => true
  | _ => false

/-- The event is the `merger.merge()` call. -/
def isCallMerge : Event → Bool
  | .mergeCall => true
  | _ => false

/-- The event is the local-tree `merger.subsumes` call. -/
def isCallValidateLocal : Event → Bool
  | .validateLocalCall => true
  | _ => false

/-- The event is the remote-tree `merger.subsumes` call. -/
def isCallValidateRemote : Event → Bool
  | .validateRemoteCall => true
  | _ => false

/-- The event is the `apply` Store call. -/
def isCallApply : Event → Bool
  | .applyCall _ _ => true
  | _ => false

/-- The event is a poll of the abort signal. -/
def isCheckAbortEv : Event → Bool
  | .checkAbort => true
  | _ => false

/-- The event is a call on the Store collaborator (fetch or apply). -/
def isStoreCall (e : Event) : Bool :=
  isCallFetchLocal e || isCallFetchRemote e || isCallApply e

/-- The Store calls of a trace, in order. -/
def storeCalls (t : List Event) : List Event := t.filter isStoreCall

/-- A checkpoint or stage of the orchestration state machine, for stating
sequencing properties. -/
inductive Label where
  | checkAbort
  | fetchLocal
  | fetchRemote
  | merge
  | validateLocal
  | validateRemote
  | apply
deriving DecidableEq

/-- The checkpoint/stage an event belongs to; telemetry events carry no
label. -/
def labelOf : Event → Option Label
  | .checkAbort => some .checkAbort
  | .fetchLocalCall => some .fetchLocal
  | .fetchRemoteCall => some .fetchRemote
  | .mergeCall => some .merge
  | .validateLocalCall => some .validateLocal
  | .validateRemoteCall => some .validateRemote
  | .applyCall _ _ => some .apply
  | .telemetry _ => none

/-- The sequence of checkpoints and stages a run of `merge_with_driver`
performs, in order. -/
def stageSequence {ε : Type} (env : StoreEnv ε) (signal : AbortSignal) :
    List Label :=
  ((mergeWithDriver env signal).2).filterMap labelOf

/-- The sequence of telemetry events a run of `merge_with_driver` records,
in order. -/
def telemetrySequence {ε : Type} (env : StoreEnv ε) (signal : AbortSignal) :
    List TelemetryEvent :=
  ((mergeWithDriver env signal).2).filterMap fun e =>
    match e with
    | .telemetry t => some t
    | _ => none

/-! ### Concrete environments used by counterexamples and witnesses -/

/-- A backend where every stage succeeds: local tree of 3 items, remote tree
of 4 items, merged root 7, one deletion on each side. -/
def happyEnv : StoreEnv Nat where
  fetchLocal := .ok ⟨3, 0⟩
  fetchRemote := .ok ⟨4, 1⟩
  mergeOutcome := .ok 7
  counts := 2
  subsumes := fun _ => true
  localDeletions := [5]
  remoteDeletions := [6]
  applyOutcome := fun _ _ => .ok ()
  fetchLocalTime := 10
  fetchRemoteTime := 11
  mergeTime := 12
  applyTime := 13

/-- A signal that never reports aborted. -/
def neverAborted : AbortSignal := fun _ => false

/-- A signal that reports aborted from the fifth poll on: an abort requested
only after all four orchestration checkpoints have passed. -/
def abortedAfterApply : AbortSignal := fun k => decide (4 ≤ k)

/-- The result of a run of `merge_with_driver`. -/
def runResult {ε : Type} (env : StoreEnv ε) (signal : AbortSignal) :
    Except (MergeError ε) Unit :=
  (mergeWithDriver env signal).1

/-- The trace of collaborator calls of a run of `merge_with_driver`. -/
def runTrace {ε : Type} (env : StoreEnv ε) (signal : AbortSignal) :
    List Event :=
  (mergeWithDriver env signal).2

/-- Whether the Apply stage operation of this environment returns Ok: the
outcome `apply` would produce on the merged root and deletion stream the
orchestration passes it (false when the merger itself fails, since then no
apply operation exists on this run). -/
def applyStageOk {ε : Type} (env : StoreEnv ε) : Bool :=
  match env.mergeOutcome with
  | .ok r =>
    isOkE (env.applyOutcome r
      (mergerDeletions env.localDeletions env.remoteDeletions))
  | .error _ => false

/-- A signal that reports aborted at every poll. -/
def alwaysAborted : AbortSignal := fun _ => true

/-- Like `happyEnv`, but the merged root subsumes neither tree. -/
def unmergedLocalEnv : StoreEnv Nat :=
  { happyEnv with subsumes := fun _ => false }

/-- Like `happyEnv`, but the merged root subsumes only the local tree (the
tree of size 3). -/
def unmergedRemoteEnv : StoreEnv Nat :=
  { happyEnv with subsumes := fun t => t.size == 3 }

/-- Like `happyEnv`, but the local fetch fails with backend error 41. -/
def fetchLocalErrEnv : StoreEnv Nat :=
  { happyEnv with fetchLocal := .error 41 }

/-- Like `happyEnv`, but the remote fetch fails with backend error 42. -/
def fetchRemoteErrEnv : StoreEnv Nat :=
  { happyEnv with fetchRemote := .error 42 }

/-- Like `happyEnv`, but the merger fails with backend error 43. -/
def mergeErrEnv : StoreEnv Nat :=
  { happyEnv with mergeOutcome := .error (.backend 43) }

/-- Like `happyEnv`, but the apply stage fails with backend error 44. -/
def applyErrEnv : StoreEnv Nat :=
  { happyEnv with applyOutcome := fun _ _ => .error 44 }

/-! ### Claim theorems -/

/-- Claim C1: if `merge_with_driver` reaches the local validation and the
merged root does not subsume the local tree, it returns the
UnmergedLocalItems error; if it reaches the remote validation (the merged
root subsumes the local tree) and the merged root does not subsume the
remote tree, it returns the UnmergedRemoteItems error; in either case the
Store `apply` is never invoked and no Apply telemetry event is recorded. -/
theorem C1_unmerged_validation {ε : Type} (env : StoreEnv ε)
    (signal : AbortSignal) (lt rt : Tree) (r : MergedRoot)
    (h0 : signal 0 = false) (hfl : env.fetchLocal = .ok lt)
    (h1 : signal 1 = false) (hfr : env.fetchRemote = .ok rt)
    (hm : env.mergeOutcome = .ok r) (h2 : signal 2 = false) :
    (env.subsumes lt = false →
      runResult env signal = .error .unmergedLocalItems ∧
      (runTrace env signal).any isCallApply = false ∧
      (runTrace env signal).any isTelApply = false) ∧
    (env.subsumes lt = true → signal 3 = false → env.subsumes rt = false →
      runResult env signal = .error .unmergedRemoteItems ∧
      (runTrace env signal).any isCallApply = false ∧
      (runTrace env signal).any isTelApply = false) := by
  constructor
  · intro hsl
    simp [runResult, runTrace, mergeWithDriver, with_timing, Except.map,
      isCallApply, isTelApply, h0, hfl, h1, hfr, hm, h2, hsl]
  · intro hsl h3 hsr
    simp [runResult, runTrace, mergeWithDriver, with_timing, Except.map,
      isCallApply, isTelApply, h0, hfl, h1, hfr, hm, h2, hsl, h3, hsr]

/-- Claim C1, witness: the local-side failure at a concrete run where the
merged root subsumes nothing, and the remote-side failure at a concrete run
where it subsumes only the local tree. -/
theorem C1_unmerged_validation_witness :
    (runResult unmergedLocalEnv neverAborted = .error .unmergedLocalItems ∧
      (runTrace unmergedLocalEnv neverAborted).any isCallApply = false ∧
      (runTrace unmergedLocalEnv neverAborted).any isTelApply = false) ∧
    (runResult unmergedRemoteEnv neverAborted = .error .unmergedRemoteItems ∧
      (runTrace unmergedRemoteEnv neverAborted).any isCallApply = false ∧
      (runTrace unmergedRemoteEnv neverAborted).any isTelApply = false) :=
  ⟨(C1_unmerged_validation unmergedLocalEnv neverAborted ⟨3, 0⟩ ⟨4, 1⟩ 7
      rfl rfl rfl rfl rfl rfl).1 rfl,
    (C1_unmerged_validation unmergedRemoteEnv neverAborted ⟨3, 0⟩ ⟨4, 1⟩ 7
      rfl rfl rfl rfl rfl rfl).2 rfl rfl rfl⟩

/-- Claim C2: if the abort signal reports aborted at a checkpoint reached
before the Merge stage (checkpoint 0, or checkpoint 1 — reached when the
local fetch succeeded), `merge_with_driver` returns the Abort error, no
Merge or Apply telemetry event is recorded, and the Store `apply` is never
invoked. -/
theorem C2_abort_before_merge {ε : Type} (env : StoreEnv ε)
    (signal : AbortSignal)
    (h : signal 0 = true ∨ (isOkE env.fetchLocal = true ∧ signal 1 = true)) :
    runResult env signal = .error .abort ∧
    (runTrace env signal).any isTelMerge = false ∧
    (runTrace env signal).any isTelApply = false ∧
    (runTrace env signal).any isCallApply = false := by
  rcases h with h | ⟨hok, h1⟩
  · simp [runResult, runTrace, mergeWithDriver, isTelMerge, isTelApply,
      isCallApply, h]
  · cases hfl : env.fetchLocal with
    | error e => simp [isOkE, hfl] at hok
    | ok lt =>
      cases hs0 : signal 0 with
      | true =>
        simp [runResult, runTrace, mergeWithDriver, isTelMerge, isTelApply,
          isCallApply, hs0]
      | false =>
        simp [runResult, runTrace, mergeWithDriver, with_timing, Except.map,
          isTelMerge, isTelApply, isCallApply, hs0, hfl, h1]

/-- Claim C2, witness: a signal aborted from the very first checkpoint. -/
theorem C2_abort_before_merge_witness :
    runResult happyEnv alwaysAborted = .error .abort ∧
    (runTrace happyEnv alwaysAborted).any isTelMerge = false ∧
    (runTrace happyEnv alwaysAborted).any isTelApply = false ∧
    (runTrace happyEnv alwaysAborted).any isCallApply = false :=
  C2_abort_before_merge happyEnv alwaysAborted (Or.inl rfl)

/-- Claim C10: when the merged root subsumes neither the local nor the
remote tree and the signal is not aborted at the checkpoint before the local
validation, `merge_with_driver` returns the UnmergedLocalItems error: the
local-side check runs first and takes precedence. -/
theorem C10_local_check_precedence {ε : Type} (env : StoreEnv ε)
    (signal : AbortSignal) (lt rt : Tree) (r : MergedRoot)
    (h0 : signal 0 = false) (hfl : env.fetchLocal = .ok lt)
    (h1 : signal 1 = false) (hfr : env.fetchRemote = .ok rt)
    (hm : env.mergeOutcome = .ok r) (h2 : signal 2 = false)
    (hsl : env.subsumes lt = false) (hsr : env.subsumes rt = false) :
    runResult env signal = .error .unmergedLocalItems := by
  simp [runResult, mergeWithDriver, with_timing, Except.map,
    h0, hfl, h1, hfr, hm, h2, hsl]

/-- Claim C10, witness: a concrete run where the merged root subsumes
neither tree. -/
theorem C10_local_check_precedence_witness :
    runResult unmergedLocalEnv neverAborted = .error .unmergedLocalItems :=
  C10_local_check_precedence unmergedLocalEnv neverAborted ⟨3, 0⟩ ⟨4, 1⟩ 7
    rfl rfl rfl rfl rfl rfl rfl rfl

/-- Claim C3, counterexample: the claimed checkpoint/stage sequence does not
hold of the code.  On a run where every stage succeeds and the signal never
aborts, the sequence performed is not
CheckAbort, FetchLocal, CheckAbort, FetchRemote, CheckAbort, Merge,
CheckAbort, ValidateLocal, CheckAbort, ValidateRemote, Apply:
no cancellation check occurs between the FetchRemote stage and the Merge
stage in the orchestration itself. -/
theorem C3_claimed_sequence_fails :
    stageSequence happyEnv neverAborted ≠
      [.checkAbort, .fetchLocal, .checkAbort, .fetchRemote, .checkAbort,
        .merge, .checkAbort, .validateLocal, .checkAbort, .validateRemote,
        .apply] := by
  decide

/-- Claim C3, amended: on every run of `merge_with_driver` in which no
checkpoint aborts and every stage succeeds, the checkpoint/stage sequence is
exactly CheckAbort, FetchLocal, CheckAbort, FetchRemote, Merge, CheckAbort,
ValidateLocal, CheckAbort, ValidateRemote, Apply — each stage except Merge is
immediately preceded by a cancellation check, and the orchestration performs
no cancellation check between the FetchRemote stage and the Merge stage (the
abort signal is instead passed to the Merger). -/
theorem C3_stage_sequence {ε : Type} (env : StoreEnv ε) (signal : AbortSignal)
    (lt rt : Tree) (r : MergedRoot)
    (h0 : signal 0 = false) (hfl : env.fetchLocal = .ok lt)
    (h1 : signal 1 = false) (hfr : env.fetchRemote = .ok rt)
    (hm : env.mergeOutcome = .ok r) (h2 : signal 2 = false)
    (hsl : env.subsumes lt = true) (h3 : signal 3 = false)
    (hsr : env.subsumes rt = true)
    (ha : env.applyOutcome r
        (mergerDeletions env.localDeletions env.remoteDeletions) = .ok ()) :
    stageSequence env signal =
      [.checkAbort, .fetchLocal, .checkAbort, .fetchRemote, .merge,
        .checkAbort, .validateLocal, .checkAbort, .validateRemote, .apply] := by
  simp [stageSequence, mergeWithDriver, with_timing, Except.map, labelOf,
    h0, hfl, h1, hfr, hm, h2, hsl, h3, hsr, ha]

/-- Claim C3, witness for the amended theorem at a concrete run. -/
theorem C3_stage_sequence_witness :
    stageSequence happyEnv neverAborted =
      [.checkAbort, .fetchLocal, .checkAbort, .fetchRemote, .merge,
        .checkAbort, .validateLocal, .checkAbort, .validateRemote, .apply] :=
  C3_stage_sequence happyEnv neverAborted ⟨3, 0⟩ ⟨4, 1⟩ 7
    rfl rfl rfl rfl rfl rfl rfl rfl rfl rfl

/-- Claim C5: on a run of `merge_with_driver` in which every stage succeeds,
exactly four telemetry events are recorded, in the order FetchLocalTree,
FetchRemoteTree, Merge, Apply; each carries the elapsed time of its stage;
the two tree-fetch events carry that tree item count and Problems counts;
the Merge event carries the merger conflict counts; and the Apply event
carries elapsed time only. -/
theorem C5_telemetry_on_success {ε : Type} (env : StoreEnv ε)
    (signal : AbortSignal) (lt rt : Tree) (r : MergedRoot)
    (h0 : signal 0 = false) (hfl : env.fetchLocal = .ok lt)
    (h1 : signal 1 = false) (hfr : env.fetchRemote = .ok rt)
    (hm : env.mergeOutcome = .ok r) (h2 : signal 2 = false)
    (hsl : env.subsumes lt = true) (h3 : signal 3 = false)
    (hsr : env.subsumes rt = true)
    (ha : env.applyOutcome r
        (mergerDeletions env.localDeletions env.remoteDeletions) = .ok ()) :
    telemetrySequence env signal =
      [.fetchLocalTree ⟨lt.size, lt.problemCounts, env.fetchLocalTime⟩,
        .fetchRemoteTree ⟨rt.size, rt.problemCounts, env.fetchRemoteTime⟩,
        .merge env.mergeTime env.counts,
        .apply env.applyTime] := by
  simp [telemetrySequence, mergeWithDriver, with_timing, Except.map,
    h0, hfl, h1, hfr, hm, h2, hsl, h3, hsr, ha]

/-- Claim C5, witness at a concrete fully successful run. -/
theorem C5_telemetry_on_success_witness :
    telemetrySequence happyEnv neverAborted =
      [.fetchLocalTree ⟨3, 0, 10⟩, .fetchRemoteTree ⟨4, 1, 11⟩,
        .merge 12 2, .apply 13] :=
  C5_telemetry_on_success happyEnv neverAborted ⟨3, 0⟩ ⟨4, 1⟩ 7
    rfl rfl rfl rfl rfl rfl rfl rfl rfl rfl

/-- Claim C4: `merge()` delegates to `merge_with_driver` with the built-in
default collaborators, so it produces the same result and performs the same
sequence of Store calls as `merge_with_driver` run with the default
(never-aborted) signal; the default no-op-telemetry driver does not alter
the orchestration. -/
theorem C4_merge_uses_defaults {ε : Type} (env : StoreEnv ε) :
    merge env = mergeWithDriver env defaultAbortSignal ∧
    storeCalls (merge env).2 = storeCalls (mergeWithDriver env defaultAbortSignal).2 :=
  ⟨rfl, rfl⟩

/-- Claim C6: every stage failure short-circuits `merge_with_driver`. If a
checkpoint is passed and the local fetch fails, the backend error is
returned unchanged and no remote fetch, merge, validation or apply call
happens; likewise for a remote fetch failure, a merger failure (whose error
is returned exactly as produced), a failed local or remote subsumption
check, and an apply failure, whose backend error is returned unchanged. -/
theorem C6_short_circuit {ε : Type} (env : StoreEnv ε)
    (signal : AbortSignal) :
    (∀ e : ε, signal 0 = false → env.fetchLocal = .error e →
      runResult env signal = .error (.backend e) ∧
      (runTrace env signal).any isCallFetchRemote = false ∧
      (runTrace env signal).any isCallMerge = false ∧
      (runTrace env signal).any isCallValidateLocal = false ∧
      (runTrace env signal).any isCallValidateRemote = false ∧
      (runTrace env signal).any isCallApply = false) ∧
    (∀ (lt : Tree) (e : ε), signal 0 = false → env.fetchLocal = .ok lt →
      signal 1 = false → env.fetchRemote = .error e →
      runResult env signal = .error (.backend e) ∧
      (runTrace env signal).any isCallMerge = false ∧
      (runTrace env signal).any isCallValidateLocal = false ∧
      (runTrace env signal).any isCallValidateRemote = false ∧
      (runTrace env signal).any isCallApply = false) ∧
    (∀ (lt rt : Tree) (em : MergeError ε), signal 0 = false →
      env.fetchLocal = .ok lt → signal 1 = false →
      env.fetchRemote = .ok rt → env.mergeOutcome = .error em →
      runResult env signal = .error em ∧
      (runTrace env signal).any isCallValidateLocal = false ∧
      (runTrace env signal).any isCallValidateRemote = false ∧
      (runTrace env signal).any isCallApply = false) ∧
    (∀ (lt rt : Tree) (r : MergedRoot), signal 0 = false →
      env.fetchLocal = .ok lt → signal 1 = false →
      env.fetchRemote = .ok rt → env.mergeOutcome = .ok r →
      signal 2 = false → env.subsumes lt = false →
      runResult env signal = .error .unmergedLocalItems ∧
      (runTrace env signal).any isCallValidateRemote = false ∧
      (runTrace env signal).any isCallApply = false) ∧
    (∀ (lt rt : Tree) (r : MergedRoot), signal 0 = false →
      env.fetchLocal = .ok lt → signal 1 = false →
      env.fetchRemote = .ok rt → env.mergeOutcome = .ok r →
      signal 2 = false → env.subsumes lt = true → signal 3 = false →
      env.subsumes rt = false →
      runResult env signal = .error .unmergedRemoteItems ∧
      (runTrace env signal).any isCallApply = false) ∧
    (∀ (lt rt : Tree) (r : MergedRoot) (e : ε), signal 0 = false →
      env.fetchLocal = .ok lt → signal 1 = false →
      env.fetchRemote = .ok rt → env.mergeOutcome = .ok r →
      signal 2 = false → env.subsumes lt = true → signal 3 = false →
      env.subsumes rt = true →
      env.applyOutcome r
        (mergerDeletions env.localDeletions env.remoteDeletions) = .error e →
      runResult env signal = .error (.backend e)) := by
  refine ⟨?_, ?_, ?_, ?_, ?_, ?_⟩
  · intro e h0 hfl
    simp [runResult, runTrace, mergeWithDriver, with_timing, Except.map,
      isCallFetchRemote, isCallMerge, isCallValidateLocal,
      isCallValidateRemote, isCallApply, h0, hfl]
  · intro lt e h0 hfl h1 hfr
    simp [runResult, runTrace, mergeWithDriver, with_timing, Except.map,
      isCallMerge, isCallValidateLocal, isCallValidateRemote, isCallApply,
      h0, hfl, h1, hfr]
  · intro lt rt em h0 hfl h1 hfr hm
    simp [runResult, runTrace, mergeWithDriver, with_timing, Except.map,
      isCallValidateLocal, isCallValidateRemote, isCallApply,
      h0, hfl, h1, hfr, hm]
  · intro lt rt r h0 hfl h1 hfr hm h2 hsl
    simp [runResult, runTrace, mergeWithDriver, with_timing, Except.map,
      isCallValidateRemote, isCallApply, h0, hfl, h1, hfr, hm, h2, hsl]
  · intro lt rt r h0 hfl h1 hfr hm h2 hsl h3 hsr
    simp [runResult, runTrace, mergeWithDriver, with_timing, Except.map,
      isCallApply, h0, hfl, h1, hfr, hm, h2, hsl, h3, hsr]
  · intro lt rt r e h0 hfl h1 hfr hm h2 hsl h3 hsr ha
    simp [runResult, mergeWithDriver, with_timing, Except.map,
      h0, hfl, h1, hfr, hm, h2, hsl, h3, hsr, ha]

/-- Claim C6, witness: each of the six failure scenarios at a concrete
run. -/
theorem C6_short_circuit_witness :
    (runResult fetchLocalErrEnv neverAborted = .error (.backend 41) ∧
      (runTrace fetchLocalErrEnv neverAborted).any isCallFetchRemote = false ∧
      (runTrace fetchLocalErrEnv neverAborted).any isCallMerge = false ∧
      (runTrace fetchLocalErrEnv neverAborted).any isCallValidateLocal = false ∧
      (runTrace fetchLocalErrEnv neverAborted).any isCallValidateRemote = false ∧
      (runTrace fetchLocalErrEnv neverAborted).any isCallApply = false) ∧
    (runResult fetchRemoteErrEnv neverAborted = .error (.backend 42) ∧
      (runTrace fetchRemoteErrEnv neverAborted).any isCallMerge = false ∧
      (runTrace fetchRemoteErrEnv neverAborted).any isCallValidateLocal = false ∧
      (runTrace fetchRemoteErrEnv neverAborted).any isCallValidateRemote = false ∧
      (runTrace fetchRemoteErrEnv neverAborted).any isCallApply = false) ∧
    (runResult mergeErrEnv neverAborted = .error (.backend 43) ∧
      (runTrace mergeErrEnv neverAborted).any isCallValidateLocal = false ∧
      (runTrace mergeErrEnv neverAborted).any isCallValidateRemote = false ∧
      (runTrace mergeErrEnv neverAborted).any isCallApply = false) ∧
    (runResult unmergedLocalEnv neverAborted = .error .unmergedLocalItems ∧
      (runTrace unmergedLocalEnv neverAborted).any isCallValidateRemote = false ∧
      (runTrace unmergedLocalEnv neverAborted).any isCallApply = false) ∧
    (runResult unmergedRemoteEnv neverAborted = .error .unmergedRemoteItems ∧
      (runTrace unmergedRemoteEnv neverAborted).any isCallApply = false) ∧
    runResult applyErrEnv neverAborted = .error (.backend 44) :=
  ⟨(C6_short_circuit fetchLocalErrEnv neverAborted).1 41 rfl rfl,
    (C6_short_circuit fetchRemoteErrEnv neverAborted).2.1 ⟨3, 0⟩ 42
      rfl rfl rfl rfl,
    (C6_short_circuit mergeErrEnv neverAborted).2.2.1 ⟨3, 0⟩ ⟨4, 1⟩
      (.backend 43) rfl rfl rfl rfl rfl,
    (C6_short_circuit unmergedLocalEnv neverAborted).2.2.2.1 ⟨3, 0⟩ ⟨4, 1⟩ 7
      rfl rfl rfl rfl rfl rfl rfl,
    (C6_short_circuit unmergedRemoteEnv neverAborted).2.2.2.2.1 ⟨3, 0⟩ ⟨4, 1⟩ 7
      rfl rfl rfl rfl rfl rfl rfl rfl rfl,
    (C6_short_circuit applyErrEnv neverAborted).2.2.2.2.2 ⟨3, 0⟩ ⟨4, 1⟩ 7 44
      rfl rfl rfl rfl rfl rfl rfl rfl rfl rfl⟩

/-- Claim C7: once the apply operation has returned successfully,
`merge_with_driver` returns Ok whatever the abort signal would report at any
later poll (only checkpoints 0 to 3, all before Apply, are ever polled), and
no cancellation check occurs at or after the Apply call in the trace. -/
theorem C7_apply_not_interruptible {ε : Type} (env : StoreEnv ε)
    (signal : AbortSignal) (lt rt : Tree) (r : MergedRoot)
    (h0 : signal 0 = false) (hfl : env.fetchLocal = .ok lt)
    (h1 : signal 1 = false) (hfr : env.fetchRemote = .ok rt)
    (hm : env.mergeOutcome = .ok r) (h2 : signal 2 = false)
    (hsl : env.subsumes lt = true) (h3 : signal 3 = false)
    (hsr : env.subsumes rt = true)
    (ha : env.applyOutcome r
        (mergerDeletions env.localDeletions env.remoteDeletions) = .ok ()) :
    runResult env signal = .ok () ∧
    ((runTrace env signal).dropWhile
      (fun e => !isCallApply e)).any isCheckAbortEv = false := by
  constructor
  · simp [runResult, mergeWithDriver, with_timing, Except.map,
      h0, hfl, h1, hfr, hm, h2, hsl, h3, hsr, ha]
  · simp [runTrace, mergeWithDriver, with_timing, Except.map, isCallApply,
      isCheckAbortEv, h0, hfl, h1, hfr, hm, h2, hsl, h3, hsr, ha]

/-- Claim C7, witness: a concrete run whose signal reports aborted at every
poll after the four orchestration checkpoints — the abort requested after
Apply has no effect. -/
theorem C7_apply_not_interruptible_witness :
    runResult happyEnv abortedAfterApply = .ok () ∧
    ((runTrace happyEnv abortedAfterApply).dropWhile
      (fun e => !isCallApply e)).any isCheckAbortEv = false :=
  C7_apply_not_interruptible happyEnv abortedAfterApply ⟨3, 0⟩ ⟨4, 1⟩ 7
    rfl rfl rfl rfl rfl rfl rfl rfl rfl rfl

/-- Claim C8: when both subsumption checks pass, the Store `apply` is
invoked exactly once, with the merged root produced by the merger and the
full deletion stream `merger.deletions()` — the local-side deletions
followed by the remote-side deletions, each tagged by side. -/
theorem C8_apply_arguments {ε : Type} (env : StoreEnv ε)
    (signal : AbortSignal) (lt rt : Tree) (r : MergedRoot)
    (h0 : signal 0 = false) (hfl : env.fetchLocal = .ok lt)
    (h1 : signal 1 = false) (hfr : env.fetchRemote = .ok rt)
    (hm : env.mergeOutcome = .ok r) (h2 : signal 2 = false)
    (hsl : env.subsumes lt = true) (h3 : signal 3 = false)
    (hsr : env.subsumes rt = true) :
    (runTrace env signal).filter isCallApply =
      [.applyCall r (mergerDeletions env.localDeletions env.remoteDeletions)] := by
  cases ha : env.applyOutcome r
      (mergerDeletions env.localDeletions env.remoteDeletions) with
  | error e =>
    simp [runTrace, mergeWithDriver, with_timing, Except.map, isCallApply,
      isCheckAbortEv, h0, hfl, h1, hfr, hm, h2, hsl, h3, hsr, ha]
  | ok v =>
    simp [runTrace, mergeWithDriver, with_timing, Except.map, isCallApply,
      isCheckAbortEv, h0, hfl, h1, hfr, hm, h2, hsl, h3, hsr, ha]

/-- Claim C8, witness: the concrete fully successful run calls `apply` once,
with merged root 7 and the tagged union of the deletion lists. -/
theorem C8_apply_arguments_witness :
    (runTrace happyEnv neverAborted).filter isCallApply =
      [.applyCall 7 [⟨5, .localSide⟩, ⟨6, .remoteSide⟩]] :=
  C8_apply_arguments happyEnv neverAborted ⟨3, 0⟩ ⟨4, 1⟩ 7
    rfl rfl rfl rfl rfl rfl rfl rfl rfl

/-- Claim C9: on every run of `merge_with_driver`, the telemetry event of
each of the four measured stages is recorded exactly when that stage ran and
its operation returned Ok; and a failing stage leaves no telemetry for any
later stage. -/
theorem C9_telemetry_on_ok {ε : Type} (env : StoreEnv ε)
    (signal : AbortSignal) :
    ((runTrace env signal).any isTelFetchLocal =
      ((runTrace env signal).any isCallFetchLocal && isOkE env.fetchLocal)) ∧
    ((runTrace env signal).any isTelFetchRemote =
      ((runTrace env signal).any isCallFetchRemote && isOkE env.fetchRemote)) ∧
    ((runTrace env signal).any isTelMerge =
      ((runTrace env signal).any isCallMerge && isOkE env.mergeOutcome)) ∧
    ((runTrace env signal).any isTelApply =
      ((runTrace env signal).any isCallApply && applyStageOk env)) ∧
    (isOkE env.fetchLocal = false →
      (runTrace env signal).any isTelFetchRemote = false ∧
      (runTrace env signal).any isTelMerge = false ∧
      (runTrace env signal).any isTelApply = false) ∧
    (isOkE env.fetchRemote = false →
      (runTrace env signal).any isTelMerge = false ∧
      (runTrace env signal).any isTelApply = false) ∧
    (isOkE env.mergeOutcome = false →
      (runTrace env signal).any isTelApply = false) := by
  cases hs0 : signal 0 with
  | true =>
    simp [runTrace, mergeWithDriver, with_timing, Except.map,
      isTelFetchLocal, isTelFetchRemote, isTelMerge, isTelApply,
      isCallFetchLocal, isCallFetchRemote, isCallMerge, isCallApply, hs0]
  | false =>
    cases hfl : env.fetchLocal with
    | error e =>
      simp [runTrace, mergeWithDriver, with_timing, Except.map,
        isTelFetchLocal, isTelFetchRemote, isTelMerge, isTelApply,
        isCallFetchLocal, isCallFetchRemote, isCallMerge, isCallApply,
        isOkE, hs0, hfl]
    | ok lt =>
      cases hs1 : signal 1 with
      | true =>
        simp [runTrace, mergeWithDriver, with_timing, Except.map,
          isTelFetchLocal, isTelFetchRemote, isTelMerge, isTelApply,
          isCallFetchLocal, isCallFetchRemote, isCallMerge, isCallApply,
          isOkE, hs0, hfl, hs1]
      | false =>
        cases hfr : env.fetchRemote with
        | error e =>
          simp [runTrace, mergeWithDriver, with_timing, Except.map,
            isTelFetchLocal, isTelFetchRemote, isTelMerge, isTelApply,
            isCallFetchLocal, isCallFetchRemote, isCallMerge, isCallApply,
            isOkE, hs0, hfl, hs1, hfr]
        | ok rt =>
          cases hm : env.mergeOutcome with
          | error em =>
            simp [runTrace, mergeWithDriver, with_timing, Except.map,
              isTelFetchLocal, isTelFetchRemote, isTelMerge, isTelApply,
              isCallFetchLocal, isCallFetchRemote, isCallMerge, isCallApply,
              isOkE, hs0, hfl, hs1, hfr, hm]
          | ok r =>
            cases hs2 : signal 2 with
            | true =>
              simp [runTrace, mergeWithDriver, with_timing, Except.map,
                isTelFetchLocal, isTelFetchRemote, isTelMerge, isTelApply,
                isCallFetchLocal, isCallFetchRemote, isCallMerge, isCallApply,
                isOkE, hs0, hfl, hs1, hfr, hm, hs2]
            | false =>
              cases hsl : env.subsumes lt with
              | false =>
                simp [runTrace, mergeWithDriver, with_timing, Except.map,
                  isTelFetchLocal, isTelFetchRemote, isTelMerge, isTelApply,
                  isCallFetchLocal, isCallFetchRemote, isCallMerge,
                  isCallApply, isOkE, hs0, hfl, hs1, hfr, hm, hs2, hsl]
              | true =>
                cases hs3 : signal 3 with
                | true =>
                  simp [runTrace, mergeWithDriver, with_timing, Except.map,
                    isTelFetchLocal, isTelFetchRemote, isTelMerge, isTelApply,
                    isCallFetchLocal, isCallFetchRemote, isCallMerge,
                    isCallApply, isOkE, hs0, hfl, hs1, hfr, hm, hs2, hsl, hs3]
                | false =>
                  cases hsr : env.subsumes rt with
                  | false =>
                    simp [runTrace, mergeWithDriver, with_timing, Except.map,
                      isTelFetchLocal, isTelFetchRemote, isTelMerge,
                      isTelApply, isCallFetchLocal, isCallFetchRemote,
                      isCallMerge, isCallApply, isOkE, hs0, hfl, hs1, hfr,
                      hm, hs2, hsl, hs3, hsr]
                  | true =>
                    cases ha : env.applyOutcome r
                        (mergerDeletions env.localDeletions
                          env.remoteDeletions) with
                    | error e =>
                      simp [runTrace, mergeWithDriver, with_timing,
                        Except.map, isTelFetchLocal, isTelFetchRemote,
                        isTelMerge, isTelApply, isCallFetchLocal,
                        isCallFetchRemote, isCallMerge, isCallApply, isOkE,
                        applyStageOk, hs0, hfl, hs1, hfr, hm, hs2, hsl, hs3,
                        hsr, ha]
                    | ok v =>
                      simp [runTrace, mergeWithDriver, with_timing,
                        Except.map, isTelFetchLocal, isTelFetchRemote,
                        isTelMerge, isTelApply, isCallFetchLocal,
                        isCallFetchRemote, isCallMerge, isCallApply, isOkE,
                        applyStageOk, hs0, hfl, hs1, hfr, hm, hs2, hsl, hs3,
                        hsr, ha]

/-- Claim C9, witness: the Apply if-and-only-if at the fully successful run,
and the no-later-telemetry consequences at runs failing at the local fetch,
the remote fetch, and the merge. -/
theorem C9_telemetry_on_ok_witness :
    ((runTrace happyEnv neverAborted).any isTelApply =
      ((runTrace happyEnv neverAborted).any isCallApply &&
        applyStageOk happyEnv)) ∧
    ((runTrace fetchLocalErrEnv neverAborted).any isTelFetchRemote = false ∧
      (runTrace fetchLocalErrEnv neverAborted).any isTelMerge = false ∧
      (runTrace fetchLocalErrEnv neverAborted).any isTelApply = false) ∧
    ((runTrace fetchRemoteErrEnv neverAborted).any isTelMerge = false ∧
      (runTrace fetchRemoteErrEnv neverAborted).any isTelApply = false) ∧
    (runTrace mergeErrEnv neverAborted).any isTelApply = false :=
  ⟨(C9_telemetry_on_ok happyEnv neverAborted).2.2.2.1,
    (C9_telemetry_on_ok fetchLocalErrEnv neverAborted).2.2.2.2.1 rfl,
    (C9_telemetry_on_ok fetchRemoteErrEnv neverAborted).2.2.2.2.2.1 rfl,
    (C9_telemetry_on_ok mergeErrEnv neverAborted).2.2.2.2.2.2 rfl⟩

end Vellum

